import Mathlib

/-!
# Verification of the MongoDbWrapper module (`src/DataStore.ts`)

Shallow embedding of the `MongoDBWrapper` class and its static query-builder
functions.  The underlying MongoDB driver is an opaque external collaborator:
its outcomes (the result of the caller-supplied transaction function, the
results of `commitTransaction` / `abortTransaction`, the identifiers it
assigns on insert) are parameters of the embedding, and where a claim needs
the driver's collection semantics (filter matching, update, delete, count,
find) the collection is modelled as a list of documents with the standard
filter-as-conjunction-of-equalities reading from the spec's glossary.

Documents are schema-less key/value records, modelled as association lists
`List (String × V)` looked up first-match-first (JavaScript objects have
unique keys, for which this is exact).
-/

/-! ## Documents and object-spread semantics -/

/-- A schema-less document: an association list of field names to values,
modelling a JavaScript plain object (`Document` in the source). -/
abbrev Doc (V : Type) := List (String × V)

/-- JavaScript property access `d[k]`: the first binding of `k` wins. -/
def getField {V : Type} (d : Doc V) (k : String) : Option V :=
  match d with
  | [] => none
  | (k', v) :: rest => if k' == k then some v else getField rest k

/-- The object-spread override `{ ...d, k: v }`: every field of `d` is kept,
except that field `k` now maps to `v` (added at the end when absent). -/
def setField {V : Type} (d : Doc V) (k : String) (v : V) : Doc V :=
  match d with
  | [] => [(k, v)]
  | (k', v') :: rest =>
    if k' == k then (k, v) :: setField rest k v
    else (k', v') :: setField rest k v

theorem getField_setField_same {V : Type} (d : Doc V) (k : String) (v : V) :
    getField (setField d k v) k = some v := by
  induction d with
  | nil => simp [setField, getField]
  | cons p rest ih =>
    obtain ⟨k', v'⟩ := p
    by_cases h : k' = k
    · simp [setField, getField, h]
    · simp [setField, getField, h, ih]

theorem getField_setField_ne {V : Type} (d : Doc V) (k k' : String) (v : V)
    (h : k' ≠ k) : getField (setField d k v) k' = getField d k' := by
  have hk : ¬ k = k' := fun hh => h hh.symm
  induction d with
  | nil => simp [setField, getField, hk]
  | cons p rest ih =>
    obtain ⟨k₀, v₀⟩ := p
    by_cases h0 : k₀ = k
    · subst h0
      simp [setField, getField, hk, ih]
    · simp [setField, getField, h0, ih]

/-! ## The transaction helper `executeInTransaction`

```ts
async executeInTransaction<T>(func): Promise<T> {
  const session = this.client.startSession();
  try {
    session.startTransaction();
    const result = await func(session);
    await session.commitTransaction();
    return result;
  } catch (error) {
    await session.abortTransaction();
    throw error;
  } finally {
    session.endSession();
  }
}
```

The driver session is opaque; the embedding records the calls made on it as
an event trace and takes the outcomes of the fallible awaited driver calls
(`func`, `commitTransaction`, `abortTransaction`) as parameters.
`startSession`, `startTransaction` (synchronous, on a fresh session) and
`endSession` (synchronous, fire-and-forget in the source) do not fail. -/

/-- Calls made on the driver session by `executeInTransaction`. -/
inductive SessionEvent where
  | startSession
  | startTransaction
  | commitTransaction
  | abortTransaction
  | endSession
deriving DecidableEq, Repr

/-- Outcomes of the three fallible awaited calls inside
`executeInTransaction`: the caller-supplied `func`, and the driver's
`commitTransaction` and `abortTransaction`. -/
structure TxDriver (ε α : Type) where
  func : Except ε α
  commit : Except ε Unit
  abort : Except ε Unit

/-- The `try` block: `startTransaction; result = await func; await commit;
return result`.  An error of `func` skips the commit; an error of the commit
escapes the block. -/
def tryBlock {ε α : Type} (d : TxDriver ε α) : Except ε α × List SessionEvent :=
  match d.func with
  | .error e => (.error e, [.startTransaction])
  | .ok a =>
    match d.commit with
    | .error e => (.error e, [.startTransaction, .commitTransaction])
    | .ok _ => (.ok a, [.startTransaction, .commitTransaction])

/-- The `catch` block: on an error from the `try` block, `await abort` and
rethrow; if the abort itself throws, its error escapes instead (in
JavaScript the `throw error` statement after a throwing `await` is never
reached). -/
def catchBlock {ε α : Type} (d : TxDriver ε α) (r : Except ε α) :
    Except ε α × List SessionEvent :=
  match r with
  | .ok a => (.ok a, [])
  | .error e =>
    match d.abort with
    | .error e2 => (.error e2, [.abortTransaction])
    | .ok _ => (.error e, [.abortTransaction])

/-- `MongoDBWrapper.executeInTransaction`: start a session, run the `try`
block, route errors through the `catch` block, and end the session in the
`finally` clause; returns the overall outcome and the session-call trace. -/
def executeInTransaction {ε α : Type} (d : TxDriver ε α) :
    Except ε α × List SessionEvent :=
  let t := tryBlock d
  let c := catchBlock d t.1
  (c.1, [SessionEvent.startSession] ++ t.2 ++ c.2 ++ [SessionEvent.endSession])

/-- C1: when the driver's commit and abort succeed, an error of the supplied
function reaches the caller unchanged with the transaction aborted and never
committed, and a success of the supplied function is committed and its value
returned unchanged. -/
theorem executeInTransaction_func_outcome {ε α : Type} (d : TxDriver ε α)
    (hc : d.commit = .ok ()) (ha : d.abort = .ok ()) :
    (∀ e : ε, d.func = .error e →
      (executeInTransaction d).1 = .error e ∧
      SessionEvent.commitTransaction ∉ (executeInTransaction d).2 ∧
      SessionEvent.abortTransaction ∈ (executeInTransaction d).2) ∧
    (∀ a : α, d.func = .ok a →
      (executeInTransaction d).1 = .ok a ∧
      SessionEvent.commitTransaction ∈ (executeInTransaction d).2 ∧
      SessionEvent.abortTransaction ∉ (executeInTransaction d).2) := by
  constructor
  · intro e he
    simp [executeInTransaction, tryBlock, catchBlock, he, hc, ha]
  · intro a haok
    simp [executeInTransaction, tryBlock, catchBlock, haok, hc, ha]

/-- Witness for C1 at concrete inputs: a failing function (error `5`) and a
succeeding function (value `3`), both with succeeding driver calls. -/
theorem executeInTransaction_func_outcome_witness :
    ((executeInTransaction (⟨.error 5, .ok (), .ok ()⟩ : TxDriver Nat Nat)).1
        = .error 5 ∧
      SessionEvent.commitTransaction ∉
        (executeInTransaction (⟨.error 5, .ok (), .ok ()⟩ : TxDriver Nat Nat)).2) ∧
    (executeInTransaction (⟨.ok 3, .ok (), .ok ()⟩ : TxDriver Nat Nat)).1 = .ok 3 := by
  refine ⟨⟨?_, ?_⟩, ?_⟩
  · exact (((executeInTransaction_func_outcome
      (⟨.error 5, .ok (), .ok ()⟩ : TxDriver Nat Nat) rfl rfl).1 5 rfl)).1
  · exact (((executeInTransaction_func_outcome
      (⟨.error 5, .ok (), .ok ()⟩ : TxDriver Nat Nat) rfl rfl).1 5 rfl)).2.1
  · exact (((executeInTransaction_func_outcome
      (⟨.ok 3, .ok (), .ok ()⟩ : TxDriver Nat Nat) rfl rfl).2 3 rfl)).1

/-- C2: on every exit path of `executeInTransaction` — success, failure of
the supplied function, failure of commit, failure of abort — the session is
ended exactly once. -/
theorem executeInTransaction_endSession_once {ε α : Type} (d : TxDriver ε α) :
    ((executeInTransaction d).2.count SessionEvent.endSession) = 1 := by
  obtain ⟨f, c, a⟩ := d
  cases f <;> cases c <;> cases a <;>
    simp [executeInTransaction, tryBlock, catchBlock, List.count_cons,
      List.count_append]

/-- C3 counterexample: the supplied function throws error `0` and
`abortTransaction` throws error `1`; the wrapper rethrows the abort error
`1`, not the identical original error `0`. -/
theorem executeInTransaction_abort_error_replaces :
    (executeInTransaction (⟨.error 0, .ok (), .error 1⟩ : TxDriver Nat Nat)).1
        = .error 1 ∧
    (executeInTransaction (⟨.error 0, .ok (), .error 1⟩ : TxDriver Nat Nat)).1
        ≠ .error 0 := by
  constructor
  · rfl
  · intro h
    rw [show (executeInTransaction
        (⟨.error 0, .ok (), .error 1⟩ : TxDriver Nat Nat)).1 = .error 1 from rfl] at h
    exact absurd (Except.error.inj h) one_ne_zero

/-- C3 amended: an error raised inside the supplied function is rethrown
identically — not wrapped or replaced — whenever `abortTransaction`
succeeds; when `abortTransaction` itself fails, the abort error propagates
to the caller instead of the original. -/
theorem executeInTransaction_error_preserved {ε α : Type} (d : TxDriver ε α)
    (e : ε) (he : d.func = .error e) :
    (d.abort = .ok () → (executeInTransaction d).1 = .error e) ∧
    (∀ e2 : ε, d.abort = .error e2 → (executeInTransaction d).1 = .error e2) := by
  constructor
  · intro ha
    simp [executeInTransaction, tryBlock, catchBlock, he, ha]
  · intro e2 ha
    simp [executeInTransaction, tryBlock, catchBlock, he, ha]

/-- Witness for the amended C3 at concrete inputs: with a succeeding abort
the original error `7` is rethrown; with abort failing with `9` the abort
error `9` propagates. -/
theorem executeInTransaction_error_preserved_witness :
    (executeInTransaction (⟨.error 7, .ok (), .ok ()⟩ : TxDriver Nat Nat)).1
        = .error 7 ∧
    (executeInTransaction (⟨.error 7, .ok (), .error 9⟩ : TxDriver Nat Nat)).1
        = .error 9 := by
  constructor
  · exact (executeInTransaction_error_preserved
      (⟨.error 7, .ok (), .ok ()⟩ : TxDriver Nat Nat) 7 rfl).1 rfl
  · exact (executeInTransaction_error_preserved
      (⟨.error 7, .ok (), .error 9⟩ : TxDriver Nat Nat) 7 rfl).2 9 rfl

/-! ## Insert operations

```ts
async insertOne<T>(collectionName, doc) {
  const result = await collection.insertOne(doc);
  return { ...doc, _id: result.insertedId };
}
async insertMany<T>(collectionName, docs) {
  const result = await collection.insertMany(docs);
  return docs.map((doc, index) => ({ ...doc, _id: result.insertedIds[index] }));
}
```

The driver assigns the identifiers; `insertedId` (resp. the index-to-identifier
map `insertedIds`) is therefore a parameter of the embedding. -/

namespace MongoDBWrapper

/-- `MongoDBWrapper.insertOne`: the value returned to the caller,
`{ ...doc, _id: result.insertedId }`. -/
def insertOne {V : Type} (doc : Doc V) (insertedId : V) : Doc V :=
  setField doc "_id" insertedId

/-- `MongoDBWrapper.insertMany`: the value returned to the caller,
`docs.map((doc, index) => ({ ...doc, _id: result.insertedIds[index] }))`. -/
def insertMany {V : Type} (docs : List (Doc V)) (insertedIds : Nat → V) :
    List (Doc V) :=
  docs.mapIdx fun index doc => setField doc "_id" (insertedIds index)

end MongoDBWrapper

/-- C4 counterexample: for the input document `{_id: 5}` and driver-assigned
identifier `7`, the result of `insertOne` does not contain the field `_id`
with its input value `5` — the spread overrides it with `7`. -/
theorem insertOne_not_all_fields_preserved :
    getField ([("_id", 5)] : Doc Nat) "_id" = some 5 ∧
    getField (MongoDBWrapper.insertOne ([("_id", 5)] : Doc Nat) 7) "_id" = some 7 ∧
    (some 7 : Option Nat) ≠ some 5 := by
  refine ⟨rfl, rfl, by decide⟩

/-- C4 amended: the result of `insertOne` contains every field of the input
document other than the identifier field `_id` with its input value, plus
the identifier field set to the assigned identifier. -/
theorem insertOne_result_fields {V : Type} (doc : Doc V) (insertedId : V) :
    (∀ k : String, k ≠ "_id" →
      getField (MongoDBWrapper.insertOne doc insertedId) k = getField doc k) ∧
    getField (MongoDBWrapper.insertOne doc insertedId) "_id" = some insertedId :=
  ⟨fun k hk => getField_setField_ne doc "_id" k insertedId hk,
   getField_setField_same doc "_id" insertedId⟩

/-- Witness for the amended C4 at a concrete input: the document
`{name: 1, age: 2}` with assigned identifier `9`. -/
theorem insertOne_result_fields_witness :
    getField (MongoDBWrapper.insertOne ([("name", 1), ("age", 2)] : Doc Nat) 9)
        "name" = some 1 ∧
    getField (MongoDBWrapper.insertOne ([("name", 1), ("age", 2)] : Doc Nat) 9)
        "_id" = some 9 := by
  refine ⟨?_, ?_⟩
  · rw [(insertOne_result_fields ([("name", 1), ("age", 2)] : Doc Nat) 9).1
      "name" (by decide)]
    rfl
  · exact (insertOne_result_fields ([("name", 1), ("age", 2)] : Doc Nat) 9).2

/-- C5: `insertMany` returns a sequence of the same length and order as the
input: the i-th result document is the i-th input document with the i-th
assigned identifier attached — its `_id` is the i-th identifier and every
other field keeps the i-th input document's value. -/
theorem insertMany_length_order {V : Type} (docs : List (Doc V))
    (insertedIds : Nat → V) :
    (MongoDBWrapper.insertMany docs insertedIds).length = docs.length ∧
    ∀ (i : Nat) (d : Doc V), docs[i]? = some d →
      (MongoDBWrapper.insertMany docs insertedIds)[i]?
          = some (setField d "_id" (insertedIds i)) ∧
      ∀ rd : Doc V,
        (MongoDBWrapper.insertMany docs insertedIds)[i]? = some rd →
        getField rd "_id" = some (insertedIds i) ∧
        ∀ k : String, k ≠ "_id" → getField rd k = getField d k := by
  refine ⟨by simp [MongoDBWrapper.insertMany], ?_⟩
  intro i d hd
  have hres : (MongoDBWrapper.insertMany docs insertedIds)[i]?
      = some (setField d "_id" (insertedIds i)) := by
    simp [MongoDBWrapper.insertMany, hd]
  refine ⟨hres, ?_⟩
  intro rd hrd
  rw [hres] at hrd
  obtain rfl : setField d "_id" (insertedIds i) = rd := Option.some.inj hrd
  exact ⟨getField_setField_same d "_id" (insertedIds i),
    fun k hk => getField_setField_ne d "_id" k (insertedIds i) hk⟩

/-- Witness for C5 at a concrete input: two documents, identifiers `10 + i`;
the second result document is the second input with identifier `11`. -/
theorem insertMany_length_order_witness :
    (MongoDBWrapper.insertMany ([[("a", 1)], [("b", 2)]] : List (Doc Nat))
        (fun i => 10 + i)).length = 2 ∧
    (MongoDBWrapper.insertMany ([[("a", 1)], [("b", 2)]] : List (Doc Nat))
        (fun i => 10 + i))[1]? = some [("b", 2), ("_id", 11)] := by
  have h := insertMany_length_order ([[("a", 1)], [("b", 2)]] : List (Doc Nat))
    (fun i => 10 + i)
  refine ⟨h.1, ?_⟩
  rw [(h.2 1 [("b", 2)] rfl).1]
  rfl

/-- C10: the identifier field of `insertOne`'s result is always the
driver-assigned identifier — for every input document, including any that
already contains an `_id` field, the spread `{ ...doc, _id: result.insertedId }`
makes the result's `_id` the assigned one, overriding any caller-supplied
value. -/
theorem insertOne_id_always_assigned {V : Type} (doc : Doc V) (insertedId : V) :
    getField (MongoDBWrapper.insertOne doc insertedId) "_id" = some insertedId :=
  getField_setField_same doc "_id" insertedId

/-! ## Query options and the static builder functions

```ts
type QueryOptions<T> = { filter?; skip?; limit?; sort?; projection? };
static createQuery(options = {}) { return options; }
static withFilter(query, filter) { return { ...query, filter }; }
// ... withSkip, withLimit, withSort, withProjection alike
```

`filter`, `sort` and `projection` are driver-interpreted data; their types
are parameters `F`, `S`, `P`. -/

/-- `QueryOptions<T>`: an options record with every field optional. -/
structure QueryOptions (F S P : Type) where
  filter : Option F := none
  skip : Option Nat := none
  limit : Option Nat := none
  sort : Option S := none
  projection : Option P := none
deriving DecidableEq, Repr

namespace MongoDBWrapper

/-- `MongoDBWrapper.createQuery`: returns its argument (defaulting to the
empty record) as is. -/
def createQuery {F S P : Type} (options : QueryOptions F S P := {}) :
    QueryOptions F S P :=
  options

/-- `MongoDBWrapper.withFilter`: `{ ...query, filter }`. -/
def withFilter {F S P : Type} (query : QueryOptions F S P) (filter : F) :
    QueryOptions F S P :=
  { query with filter := some filter }

/-- `MongoDBWrapper.withSkip`: `{ ...query, skip }`. -/
def withSkip {F S P : Type} (query : QueryOptions F S P) (skip : Nat) :
    QueryOptions F S P :=
  { query with skip := some skip }

/-- `MongoDBWrapper.withLimit`: `{ ...query, limit }`. -/
def withLimit {F S P : Type} (query : QueryOptions F S P) (limit : Nat) :
    QueryOptions F S P :=
  { query with limit := some limit }

/-- `MongoDBWrapper.withSort`: `{ ...query, sort }`. -/
def withSort {F S P : Type} (query : QueryOptions F S P) (sort : S) :
    QueryOptions F S P :=
  { query with sort := some sort }

/-- `MongoDBWrapper.withProjection`: `{ ...query, projection }`. -/
def withProjection {F S P : Type} (query : QueryOptions F S P)
    (projection : P) : QueryOptions F S P :=
  { query with projection := some projection }

end MongoDBWrapper

/-- C6: each `with*` builder returns a record that equals its input on every
field except the targeted one, which holds the supplied value; the input
record itself is a value in this embedding and is therefore untouched. -/
theorem builders_replace_only_target {F S P : Type} (q : QueryOptions F S P)
    (f : F) (sk l : Nat) (so : S) (pr : P) :
    ((MongoDBWrapper.withFilter q f).filter = some f ∧
      (MongoDBWrapper.withFilter q f).skip = q.skip ∧
      (MongoDBWrapper.withFilter q f).limit = q.limit ∧
      (MongoDBWrapper.withFilter q f).sort = q.sort ∧
      (MongoDBWrapper.withFilter q f).projection = q.projection) ∧
    ((MongoDBWrapper.withSkip q sk).skip = some sk ∧
      (MongoDBWrapper.withSkip q sk).filter = q.filter ∧
      (MongoDBWrapper.withSkip q sk).limit = q.limit ∧
      (MongoDBWrapper.withSkip q sk).sort = q.sort ∧
      (MongoDBWrapper.withSkip q sk).projection = q.projection) ∧
    ((MongoDBWrapper.withLimit q l).limit = some l ∧
      (MongoDBWrapper.withLimit q l).filter = q.filter ∧
      (MongoDBWrapper.withLimit q l).skip = q.skip ∧
      (MongoDBWrapper.withLimit q l).sort = q.sort ∧
      (MongoDBWrapper.withLimit q l).projection = q.projection) ∧
    ((MongoDBWrapper.withSort q so).sort = some so ∧
      (MongoDBWrapper.withSort q so).filter = q.filter ∧
      (MongoDBWrapper.withSort q so).skip = q.skip ∧
      (MongoDBWrapper.withSort q so).limit = q.limit ∧
      (MongoDBWrapper.withSort q so).projection = q.projection) ∧
    ((MongoDBWrapper.withProjection q pr).projection = some pr ∧
      (MongoDBWrapper.withProjection q pr).filter = q.filter ∧
      (MongoDBWrapper.withProjection q pr).skip = q.skip ∧
      (MongoDBWrapper.withProjection q pr).limit = q.limit ∧
      (MongoDBWrapper.withProjection q pr).sort = q.sort) :=
  ⟨⟨rfl, rfl, rfl, rfl, rfl⟩, ⟨rfl, rfl, rfl, rfl, rfl⟩,
   ⟨rfl, rfl, rfl, rfl, rfl⟩, ⟨rfl, rfl, rfl, rfl, rfl⟩,
   ⟨rfl, rfl, rfl, rfl, rfl⟩⟩

/-! ## Construction and the client-call trace

```ts
constructor(private config: DataStoreConfig) {
  this.client = new MongoClient(config.url);
  this.db = this.client.db(config.dbName);
}
async connect() { await this.client.connect(); ... }
```
-/

/-- `DataStoreConfig`: connection URL and database name. -/
structure DataStoreConfig where
  url : String
  dbName : String

/-- The operations invoked on the underlying `MongoClient`. -/
inductive ClientCall where
  | newClient (url : String)
  | getDb (dbName : String)
  | connect
  | close
deriving DecidableEq, Repr

/-- The `MongoDBWrapper` constructor's client calls: it constructs the
client object from the URL and selects the database handle — nothing else. -/
def constructorCalls (config : DataStoreConfig) : List ClientCall :=
  [ClientCall.newClient config.url, ClientCall.getDb config.dbName]

/-- `MongoDBWrapper.connect`'s client calls: the explicit
`this.client.connect()`. -/
def connectCalls : List ClientCall := [ClientCall.connect]

/-- C8: for every configuration, constructing the wrapper performs no connect
call on the underlying client; the connect call happens only in the explicit
`connect` method. -/
theorem constructor_does_not_connect (config : DataStoreConfig) :
    ClientCall.connect ∉ constructorCalls config ∧
    ClientCall.connect ∈ connectCalls := by
  refine ⟨?_, by simp [connectCalls]⟩
  simp [constructorCalls]

/-! ## Object identity of the builder results

JavaScript records have identity: an object literal `{ ...query, filter }`
allocates a fresh object, while `return options` returns the very argument
reference.  A heap of options records makes this observable: a record is a
reference (an index into the heap) and allocation appends. -/

/-- A heap of options records; references are indices into it. -/
abbrev OptionsHeap (F S P : Type) := List (QueryOptions F S P)

/-- Allocation of a fresh record: append at the end, return the new
reference. -/
def allocRecord {F S P : Type} (h : OptionsHeap F S P)
    (q : QueryOptions F S P) : OptionsHeap F S P × Nat :=
  (h ++ [q], h.length)

/-- `createQuery` at the object level: `return options` hands back the
argument reference itself, allocating nothing. -/
def jsCreateQuery {F S P : Type} (h : OptionsHeap F S P) (r : Nat) :
    OptionsHeap F S P × Nat :=
  (h, r)

/-- `withFilter` at the object level: dereference the argument and allocate
the fresh literal `{ ...query, filter }` (a dangling reference is returned
unchanged; it never arises). -/
def jsWithFilter {F S P : Type} (h : OptionsHeap F S P) (r : Nat) (f : F) :
    OptionsHeap F S P × Nat :=
  match h[r]? with
  | some q => allocRecord h (MongoDBWrapper.withFilter q f)
  | none => (h, r)

/-- `withSkip` at the object level. -/
def jsWithSkip {F S P : Type} (h : OptionsHeap F S P) (r : Nat) (sk : Nat) :
    OptionsHeap F S P × Nat :=
  match h[r]? with
  | some q => allocRecord h (MongoDBWrapper.withSkip q sk)
  | none => (h, r)

/-- `withLimit` at the object level. -/
def jsWithLimit {F S P : Type} (h : OptionsHeap F S P) (r : Nat) (l : Nat) :
    OptionsHeap F S P × Nat :=
  match h[r]? with
  | some q => allocRecord h (MongoDBWrapper.withLimit q l)
  | none => (h, r)

/-- `withSort` at the object level. -/
def jsWithSort {F S P : Type} (h : OptionsHeap F S P) (r : Nat) (so : S) :
    OptionsHeap F S P × Nat :=
  match h[r]? with
  | some q => allocRecord h (MongoDBWrapper.withSort q so)
  | none => (h, r)

/-- `withProjection` at the object level. -/
def jsWithProjection {F S P : Type} (h : OptionsHeap F S P) (r : Nat)
    (pr : P) : OptionsHeap F S P × Nat :=
  match h[r]? with
  | some q => allocRecord h (MongoDBWrapper.withProjection q pr)
  | none => (h, r)

/-- C9 counterexample: on a one-record heap, `createQuery` returns the input
record itself — the same reference, with nothing allocated — contradicting
"no builder ever returns the input record itself". -/
theorem createQuery_returns_input_record :
    (jsCreateQuery ([{}] : OptionsHeap Nat Nat Nat) 0).2 = 0 ∧
    (jsCreateQuery ([{}] : OptionsHeap Nat Nat Nat) 0).1
        = ([{}] : OptionsHeap Nat Nat Nat) :=
  ⟨rfl, rfl⟩

/-- Auxiliary fact shared by the five `with*` builders at the object level:
allocating a copy yields a reference distinct from every valid input
reference, preserves the input record, and stores the copy at the fresh
reference. -/
theorem allocRecord_fresh {F S P : Type} (h : OptionsHeap F S P)
    (r : Nat) (q c : QueryOptions F S P) (hr : h[r]? = some q) :
    (allocRecord h c).2 ≠ r ∧
    (allocRecord h c).1[r]? = some q ∧
    (allocRecord h c).1[(allocRecord h c).2]? = some c := by
  obtain ⟨hlt, -⟩ := List.getElem?_eq_some_iff.mp hr
  refine ⟨fun hcon => absurd (hcon ▸ hlt) (lt_irrefl r), ?_, ?_⟩
  · rw [show (allocRecord h c).1 = h ++ [c] from rfl,
      List.getElem?_append_left hlt]
    exact hr
  · exact List.getElem?_concat_length h c

/-- C9 amended: the five `with*` builders each return a fresh shallow copy —
a reference distinct from the input's, the input record left unchanged in
the heap, and the copy equal to the input record with the one targeted field
replaced — while `createQuery` returns its input record itself, with the
heap untouched. -/
theorem builders_return_fresh_copy {F S P : Type} (h : OptionsHeap F S P)
    (r : Nat) (q : QueryOptions F S P) (f : F) (sk l : Nat) (so : S) (pr : P)
    (hr : h[r]? = some q) :
    ((jsWithFilter h r f).2 ≠ r ∧
      (jsWithFilter h r f).1[r]? = some q ∧
      (jsWithFilter h r f).1[(jsWithFilter h r f).2]?
          = some (MongoDBWrapper.withFilter q f)) ∧
    ((jsWithSkip h r sk).2 ≠ r ∧
      (jsWithSkip h r sk).1[r]? = some q ∧
      (jsWithSkip h r sk).1[(jsWithSkip h r sk).2]?
          = some (MongoDBWrapper.withSkip q sk)) ∧
    ((jsWithLimit h r l).2 ≠ r ∧
      (jsWithLimit h r l).1[r]? = some q ∧
      (jsWithLimit h r l).1[(jsWithLimit h r l).2]?
          = some (MongoDBWrapper.withLimit q l)) ∧
    ((jsWithSort h r so).2 ≠ r ∧
      (jsWithSort h r so).1[r]? = some q ∧
      (jsWithSort h r so).1[(jsWithSort h r so).2]?
          = some (MongoDBWrapper.withSort q so)) ∧
    ((jsWithProjection h r pr).2 ≠ r ∧
      (jsWithProjection h r pr).1[r]? = some q ∧
      (jsWithProjection h r pr).1[(jsWithProjection h r pr).2]?
          = some (MongoDBWrapper.withProjection q pr)) ∧
    jsCreateQuery h r = (h, r) := by
  refine ⟨?_, ?_, ?_, ?_, ?_, rfl⟩
  · rw [show jsWithFilter h r f
      = allocRecord h (MongoDBWrapper.withFilter q f) by rw [jsWithFilter, hr]]
    exact allocRecord_fresh h r q _ hr
  · rw [show jsWithSkip h r sk
      = allocRecord h (MongoDBWrapper.withSkip q sk) by rw [jsWithSkip, hr]]
    exact allocRecord_fresh h r q _ hr
  · rw [show jsWithLimit h r l
      = allocRecord h (MongoDBWrapper.withLimit q l) by rw [jsWithLimit, hr]]
    exact allocRecord_fresh h r q _ hr
  · rw [show jsWithSort h r so
      = allocRecord h (MongoDBWrapper.withSort q so) by rw [jsWithSort, hr]]
    exact allocRecord_fresh h r q _ hr
  · rw [show jsWithProjection h r pr
      = allocRecord h (MongoDBWrapper.withProjection q pr) by
        rw [jsWithProjection, hr]]
    exact allocRecord_fresh h r q _ hr

/-- Witness for the amended C9 at a concrete input: a one-record heap; the
`withSkip` copy lives at the fresh reference `1` with `skip` set, and
`createQuery` hands back reference `0`. -/
theorem builders_return_fresh_copy_witness :
    (jsWithSkip ([{}] : OptionsHeap Nat Nat Nat) 0 5).2 ≠ 0 ∧
    (jsWithSkip ([{}] : OptionsHeap Nat Nat Nat) 0 5).1[0]?
        = some ({} : QueryOptions Nat Nat Nat) ∧
    jsCreateQuery ([{}] : OptionsHeap Nat Nat Nat) 0 = ([{}], 0) := by
  have h := builders_return_fresh_copy ([{}] : OptionsHeap Nat Nat Nat) 0
    ({} : QueryOptions Nat Nat Nat) 0 5 0 0 0 rfl
  exact ⟨h.2.1.1, h.2.1.2.1, h.2.2.2.2.2⟩

/-! ## Filtered operations and the absent-filter default

Every filtered wrapper method passes `query.filter || {}` to the driver
(`undefined` is replaced by the empty filter).  The driver collection is
modelled as a list of documents; a filter, per the spec's glossary, as a
predicate given by a conjunction of field-equality constraints — the empty
filter `{}` has no constraints and matches every document.  The driver's
`sort` and `projection` inputs are modelled by their denotations (a list
transformer and a document transformer). -/

/-- A filter: a conjunction of field-equality constraints; `[]` is `{}`. -/
abbrev Filt (V : Type) := List (String × V)

/-- Whether document `d` matches filter `f`. -/
def filterMatches {V : Type} [BEq V] (f : Filt V) (d : Doc V) : Bool :=
  f.all fun p => getField d p.1 == some p.2

/-- A collection: the list of its documents. -/
abbrev Coll (V : Type) := List (Doc V)

/-- Driver `updateOne`: apply the update to the first matching document. -/
def collUpdateOne {V : Type} [BEq V] (coll : Coll V) (f : Filt V)
    (u : Doc V → Doc V) : Coll V :=
  match coll with
  | [] => []
  | d :: rest =>
    if filterMatches f d then u d :: rest else d :: collUpdateOne rest f u

/-- Driver `updateMany`: apply the update to every matching document. -/
def collUpdateMany {V : Type} [BEq V] (coll : Coll V) (f : Filt V)
    (u : Doc V → Doc V) : Coll V :=
  coll.map fun d => if filterMatches f d then u d else d

/-- Driver `deleteOne`: remove the first matching document. -/
def collDeleteOne {V : Type} [BEq V] (coll : Coll V) (f : Filt V) : Coll V :=
  match coll with
  | [] => []
  | d :: rest => if filterMatches f d then rest else d :: collDeleteOne rest f

/-- Driver `deleteMany`: remove every matching document. -/
def collDeleteMany {V : Type} [BEq V] (coll : Coll V) (f : Filt V) : Coll V :=
  coll.filter fun d => !(filterMatches f d)

/-- Driver `countDocuments`: the number of matching documents. -/
def collCount {V : Type} [BEq V] (coll : Coll V) (f : Filt V) : Nat :=
  (coll.filter (filterMatches f)).length

/-- Driver `find(filter, {skip, limit, sort, projection}).toArray()`:
matching documents, sorted, after the skip, cut at the limit, projected. -/
def collFind {V : Type} [BEq V] (coll : Coll V) (f : Filt V)
    (sortF : Option (Coll V → Coll V)) (skip limit : Option Nat)
    (proj : Option (Doc V → Doc V)) : Coll V :=
  let m := coll.filter (filterMatches f)
  let m := match sortF with | some s => s m | none => m
  let m := m.drop (skip.getD 0)
  let m := match limit with | some lim => m.take lim | none => m
  match proj with | some p => m.map p | none => m

/-- Driver `findOne(filter, {skip, sort, projection})`: the first matching
document after sort and skip, projected; `none` models the `null` result. -/
def collFindOne {V : Type} [BEq V] (coll : Coll V) (f : Filt V)
    (sortF : Option (Coll V → Coll V)) (skip : Option Nat)
    (proj : Option (Doc V → Doc V)) : Option (Doc V) :=
  (collFind coll f sortF skip none proj).head?

/-- The options record the filtered wrapper methods receive: `filter` is
filter data, `sort` and `projection` are modelled by their denotations. -/
abbrev WrapperQuery (V : Type) :=
  QueryOptions (Filt V) (Coll V → Coll V) (Doc V → Doc V)

namespace MongoDBWrapper

/-- `MongoDBWrapper.updateOne`: `collection.updateOne(query.filter || {}, update)`. -/
def updateOne {V : Type} [BEq V] (coll : Coll V) (query : WrapperQuery V)
    (update : Doc V → Doc V) : Coll V :=
  collUpdateOne coll (query.filter.getD []) update

/-- `MongoDBWrapper.updateMany`: `collection.updateMany(query.filter || {}, update)`. -/
def updateMany {V : Type} [BEq V] (coll : Coll V) (query : WrapperQuery V)
    (update : Doc V → Doc V) : Coll V :=
  collUpdateMany coll (query.filter.getD []) update

/-- `MongoDBWrapper.findOne`: `collection.findOne(query.filter || {},
{skip, sort, projection})`. -/
def findOne {V : Type} [BEq V] (coll : Coll V) (query : WrapperQuery V) :
    Option (Doc V) :=
  collFindOne coll (query.filter.getD []) query.sort query.skip
    query.projection

/-- `MongoDBWrapper.find`: `collection.find(query.filter || {},
{skip, limit, sort, projection}).toArray()`. -/
def find {V : Type} [BEq V] (coll : Coll V) (query : WrapperQuery V) :
    Coll V :=
  collFind coll (query.filter.getD []) query.sort query.skip query.limit
    query.projection

/-- `MongoDBWrapper.deleteOne`: `collection.deleteOne(query.filter || {})`. -/
def deleteOne {V : Type} [BEq V] (coll : Coll V) (query : WrapperQuery V) :
    Coll V :=
  collDeleteOne coll (query.filter.getD [])

/-- `MongoDBWrapper.deleteMany`: `collection.deleteMany(query.filter || {})`. -/
def deleteMany {V : Type} [BEq V] (coll : Coll V) (query : WrapperQuery V) :
    Coll V :=
  collDeleteMany coll (query.filter.getD [])

/-- `MongoDBWrapper.count`: `collection.countDocuments(query.filter || {})`. -/
def count {V : Type} [BEq V] (coll : Coll V) (query : WrapperQuery V) : Nat :=
  collCount coll (query.filter.getD [])

end MongoDBWrapper

/-- C7: on every collection, each of the seven filtered operations applied
to an options record with the filter field absent behaves exactly as with
the match-all empty filter `{}` — and the empty filter does match every
document. -/
theorem absent_filter_is_match_all {V : Type} [BEq V] (coll : Coll V)
    (q : WrapperQuery V) (update : Doc V → Doc V) :
    MongoDBWrapper.updateOne coll { q with filter := none } update
        = MongoDBWrapper.updateOne coll { q with filter := some [] } update ∧
    MongoDBWrapper.updateMany coll { q with filter := none } update
        = MongoDBWrapper.updateMany coll { q with filter := some [] } update ∧
    MongoDBWrapper.deleteOne coll { q with filter := none }
        = MongoDBWrapper.deleteOne coll { q with filter := some [] } ∧
    MongoDBWrapper.deleteMany coll { q with filter := none }
        = MongoDBWrapper.deleteMany coll { q with filter := some [] } ∧
    MongoDBWrapper.count coll { q with filter := none }
        = MongoDBWrapper.count coll { q with filter := some [] } ∧
    MongoDBWrapper.find coll { q with filter := none }
        = MongoDBWrapper.find coll { q with filter := some [] } ∧
    MongoDBWrapper.findOne coll { q with filter := none }
        = MongoDBWrapper.findOne coll { q with filter := some [] } ∧
    ∀ d : Doc V, filterMatches ([] : Filt V) d = true :=
  ⟨rfl, rfl, rfl, rfl, rfl, rfl, rfl, fun _ => rfl⟩
